import Mathlib

/-
  Shallow embedding of the "cooking-with-webpack" tutorial repository.

  Embedded artifacts:
  * `hello` — the CommonJS greeting module of the part-1 article
    (src/unnamed/part_000, lines 125-131).
  * `rulesRevision` / `loadersRevision` — the two revisions of the webpack
    configuration object (src/unnamed/part_001, the `rules` block at lines
    4-39 and the older `loaders` block at lines 43-73).
  * `entryStartup` / `entryHandler` — the entry script of the part-2 example
    (src/2-using-loaders/src/index.js), which registers a keyup listener on
    the text input and, on Enter (keyCode 13), inserts HTML into the
    `#hellos` container and clears the input.
-/

namespace CookingWithWebpack

/-- Embedding of hello.js (part_000 lines 125-131):
`module.exports = function(name) { if (name === undefined) { name = 'World'; } return 'Hello, ' + name + '!'; }`.
A missing JavaScript argument is `undefined`, modelled as `none`. -/
def hello (name : Option String) : String :=
  let n := match name with
    | none => "World"
    | some s => s
  "Hello, " ++ n ++ "!"

/-- Embedding of Node's `path.join(a, b)` for the simple relative second
arguments used in the config (no `.`/`..` segments, no trailing slashes):
it joins the two segments with a single separator. -/
def pathJoin (a b : String) : String := a ++ "/" ++ b

/-- A path is absolute when it starts with the separator character. -/
def isAbsolutePath (s : String) : Bool :=
  match s.data with
  | [] => false
  | c :: _ => c == '/'

/-- The `query` payload sent to a loader (`{ presets: ['es2015'] }`). -/
structure Query where
  presets : List String
deriving DecidableEq, Repr

/-- One element of a `use` chain in the newer schema: a loader name plus an
optional `query` payload. -/
structure UseEntry where
  loader : String
  query : Option Query := none
deriving DecidableEq, Repr

/-- One record of `module.rules` in the newer schema: a `test` regex source
pattern, an optional `exclude` regex source pattern, and a `use` chain. -/
structure Rule where
  test : String
  exclude : Option String := none
  use : List UseEntry
deriving DecidableEq, Repr

/-- One record of the older `module.loaders` schema: a `test` pattern, an
optional `exclude` pattern, and either a single `loader` name or a
`loaders` chain, with an optional rule-level `query` payload. -/
structure LegacyRule where
  test : String
  exclude : Option String := none
  loader : Option String := none
  loaders : Option (List String) := none
  query : Option Query := none
deriving DecidableEq, Repr

/-- The `output` block of the configuration object. -/
structure Output where
  path : String
  filename : String
deriving DecidableEq, Repr

/-- The configuration object in the newer (`module.rules`) schema. -/
structure RulesConfig where
  entry : String
  output : Output
  rules : List Rule
deriving DecidableEq, Repr

/-- The configuration object in the older (`module.loaders`) schema. -/
structure LoadersConfig where
  entry : String
  output : Output
  loaders : List LegacyRule
deriving DecidableEq, Repr

/-- The `module.rules` list of the newer revision (part_001 lines 10-38).
Regex literals are embedded as their source patterns. -/
def rulesList : List Rule :=
  [ { test := "\\.html$", use := [{ loader := "html-loader" }] }
  , { test := "\\.hbs$", use := [{ loader := "handlebars-loader" }] }
  , { test := "\\.css$", use := [{ loader := "style-loader" }, { loader := "css-loader" }] }
  , { test := "\\.js$", exclude := some "(node_modules)"
    , use := [{ loader := "babel-loader", query := some { presets := ["es2015"] } }] } ]

/-- The `module.loaders` list of the older revision (part_001 lines 49-72). -/
def legacyLoadersList : List LegacyRule :=
  [ { test := "\\.html$", loader := some "html" }
  , { test := "\\.hbs$", loader := some "handlebars" }
  , { test := "\\.css$", loaders := some ["style", "css"] }
  , { test := "\\.js$", exclude := some "(node_modules)"
    , loader := some "babel-loader", query := some { presets := ["es2015"] } } ]

/-- The newer revision of the configuration object (part_001 lines 4-39),
parameterised by the value of `__dirname`. -/
def rulesRevision (dirname : String) : RulesConfig :=
  { entry := pathJoin dirname "src/index.js"
  , output := { path := pathJoin dirname "dist", filename := "index.bundle.js" }
  , rules := rulesList }

/-- The older revision of the configuration object (part_001 lines 43-73),
parameterised by the value of `__dirname`. -/
def loadersRevision (dirname : String) : LoadersConfig :=
  { entry := pathJoin dirname "src/index.js"
  , output := { path := pathJoin dirname "dist", filename := "index.bundle.js" }
  , loaders := legacyLoadersList }

/-- The loader-name chain of a newer-schema rule, in order. -/
def Rule.chain (r : Rule) : List String := r.use.map UseEntry.loader

/-- The loader-name chain of an older-schema rule, in order: the `loaders`
list when present, otherwise the single `loader` name. -/
def LegacyRule.chain (r : LegacyRule) : List String :=
  match r.loaders with
  | some ns => ns
  | none =>
    match r.loader with
    | some n => [n]
    | none => []

/-- The loader chain of a newer-schema rule paired with each entry's
`query` payload. -/
def Rule.chainWithQuery (r : Rule) : List (String × Option Query) :=
  r.use.map fun u => (u.loader, u.query)

/-- The loader chain of an older-schema rule paired with the rule-level
`query` payload attached to its single loader. -/
def LegacyRule.chainWithQuery (r : LegacyRule) : List (String × Option Query) :=
  match r.loaders with
  | some ns => ns.map fun n => (n, r.query)
  | none =>
    match r.loader with
    | some n => [(n, r.query)]
    | none => []

/-- The characters of the `-loader` suffix that webpack's module
resolution appends to a bare loader name. -/
def loaderSuffix : List Char := "-loader".data

/-- Webpack resolves a bare loader name such as `html` to the package
`html-loader`; names already carrying the suffix resolve to themselves. -/
def canonicalLoaderName (n : String) : String :=
  if loaderSuffix.isSuffixOf n.data then n else n ++ "-loader"

/-- Canonicalise every loader name of a chain-with-query list. -/
def canonicalChain (l : List (String × Option Query)) : List (String × Option Query) :=
  l.map fun p => (canonicalLoaderName p.1, p.2)

/-- A keyup event as the handler observes it: only `e.keyCode` is read from
the event object. `e.target` is the input element itself, so
`e.target.value` is the input's current value, kept in `Dom`. -/
structure Event where
  keyCode : Nat
deriving DecidableEq, Repr

/-- The DOM state the entry script touches: the value of the
`.js-add-hello` text input and the inner HTML of the `#hellos` container. -/
structure Dom where
  inputValue : String
  hellosHTML : String
deriving DecidableEq, Repr

/-- A registered DOM event listener, identified by its event type and the
selector of the element it is attached to. -/
structure ListenerReg where
  eventType : String
  targetSelector : String
deriving DecidableEq, Repr

/-- The page state: the DOM pieces the script uses plus the list of
registered event listeners, in registration order. -/
structure PageState where
  dom : Dom
  listeners : List ListenerReg
deriving DecidableEq, Repr

/-- `el.insertAdjacentHTML('beforeend', html)` inserts `html` inside `el`,
after its last child: the container's content with `html` appended. -/
def insertAdjacentBeforeend (container html : String) : String :=
  container ++ html

/-- Embedding of the keyup handler of src/2-using-loaders/src/index.js
(lines 8-13): when `e.keyCode === 13`, it first inserts
`hello(e.target.value)` at `beforeend` of `#hellos`, then sets
`input.value = ''`; otherwise it does nothing. The imported `hello`
module is passed in as `helloFn`, and `e.target.value` is the input's
current value `d.inputValue`. -/
def entryHandler (helloFn : String → String) (e : Event) (d : Dom) : Dom :=
  if e.keyCode = 13 then
    let d1 := { d with
      hellosHTML := insertAdjacentBeforeend d.hellosHTML (helloFn d.inputValue) }
    { d1 with inputValue := "" }
  else d

/-- The listener registrations the entry script performs at startup: the
single `input.addEventListener('keyup', ...)` call on `.js-add-hello`. -/
def registeredListeners : List ListenerReg :=
  [{ eventType := "keyup", targetSelector := ".js-add-hello" }]

/-- Embedding of the entry script's top-level execution: it queries the two
elements and appends its one keyup listener registration; it mutates no
other state. -/
def entryStartup (s : PageState) : PageState :=
  { s with listeners := s.listeners ++ registeredListeners }

/-- Dispatching an event after startup runs the script's only handler on
the DOM; the handler registers no listeners. -/
def dispatch (helloFn : String → String) (e : Event) (s : PageState) : PageState :=
  { s with dom := entryHandler helloFn e s.dom }

/-- A fresh page before the entry script runs: empty input, empty
`#hellos` container, no listeners. -/
def initialPage : PageState :=
  { dom := { inputValue := "", hellosHTML := "" }, listeners := [] }

/-- Joining a further segment onto an absolute path yields an absolute
path. -/
theorem isAbsolutePath_pathJoin (d x : String)
    (h : isAbsolutePath d = true) : isAbsolutePath (pathJoin d x) = true := by
  obtain ⟨l⟩ := d
  cases l with
  | nil => simp [isAbsolutePath] at h
  | cons c t =>
    simp only [isAbsolutePath, pathJoin] at h ⊢
    have : (String.mk (c :: t) ++ "/" ++ x).data = c :: (t ++ "/".data ++ x.data) := by
      simp [String.data_append]
    rw [this]
    exact h

/-- C1: the greeting function on no argument returns exactly
"Hello, World!", and on the argument "Nick" returns exactly
"Hello, Nick!". -/
theorem C1_hello_examples :
    hello none = "Hello, World!" ∧ hello (some "Nick") = "Hello, Nick!" :=
  ⟨rfl, rfl⟩

/-- C2 counterexample: the two revisions do not carry literally the same
loader chains — already in the first record, the newer revision names the
loader "html-loader" while the older one names it "html" — so they differ
in more than the schema keys used. -/
theorem C2_loader_names_differ :
    ¬ (rulesList.map Rule.chain = legacyLoadersList.map LegacyRule.chain) := by
  decide

/-- C2 amended: the two revisions define the same `entry` and `output`
for every value of `__dirname`, the same ordered `test` patterns and
`exclude` patterns, and the same ordered loader chains with the same
`query` payloads once each loader name is normalised to its resolved
`-loader` package name; beyond that normalisation they differ only in the
schema keys used. -/
theorem C2_revisions_equivalent (d : String) :
    (rulesRevision d).entry = (loadersRevision d).entry ∧
    (rulesRevision d).output = (loadersRevision d).output ∧
    rulesList.map Rule.test = legacyLoadersList.map LegacyRule.test ∧
    rulesList.map Rule.exclude = legacyLoadersList.map LegacyRule.exclude ∧
    (rulesList.map fun r => canonicalChain r.chainWithQuery)
      = legacyLoadersList.map fun r => canonicalChain r.chainWithQuery := by
  exact ⟨rfl, rfl, by decide, by decide, by decide⟩

/-- C3 counterexample: the entry script registers no click listener at
all — its only registration is a keyup listener — so it does not wire a
button click to DOM insertion. -/
theorem C3_no_click_listener :
    ¬ ∃ r ∈ (entryStartup initialPage).listeners, r.eventType = "click" := by
  decide

/-- C3 amended: the entry script wires a keyup event on the
`.js-add-hello` text input to DOM insertion: it registers exactly the
keyup listener on that element, and the registered handler, on keyCode
13, inserts HTML (the greeting for the input's value) into the `#hellos`
container. -/
theorem C3_keyup_wires_dom_insertion :
    (entryStartup initialPage).listeners
      = [{ eventType := "keyup", targetSelector := ".js-add-hello" }] ∧
    ∀ (helloFn : String → String) (d : Dom),
      (entryHandler helloFn { keyCode := 13 } d).hellosHTML
        = d.hellosHTML ++ helloFn d.inputValue :=
  ⟨rfl, fun _ _ => rfl⟩

/-- C4: in both revisions every record has a `test` pattern and a
nonempty loader chain; only the JavaScript rule (`test` = `\.js$`)
carries an `exclude` pattern; only the babel loader carries a `query`
payload, and that payload is exactly the preset list ["es2015"]; and in
the older schema every record has exactly one of `loader` or `loaders`. -/
theorem C4_rule_invariants :
    (∀ r ∈ rulesList, r.chain ≠ [] ∧
      (r.exclude ≠ none → r.test = "\\.js$") ∧
      ∀ u ∈ r.use, u.query ≠ none →
        u.loader = "babel-loader" ∧ u.query = some { presets := ["es2015"] }) ∧
    (∀ r ∈ legacyLoadersList, r.chain ≠ [] ∧
      (r.exclude ≠ none → r.test = "\\.js$") ∧
      (r.query ≠ none →
        r.loader = some "babel-loader" ∧ r.query = some { presets := ["es2015"] }) ∧
      (r.loader = none ↔ r.loaders ≠ none)) := by
  decide

/-- C5: in the configuration object, `entry` is `__dirname` joined with
'src/index.js', `output.path` is `__dirname` joined with 'dist', both are
absolute whenever `__dirname` is absolute, and `output.filename` is the
single bundle name 'index.bundle.js'. -/
theorem C5_entry_and_output (d : String) (h : isAbsolutePath d = true) :
    (rulesRevision d).entry = pathJoin d "src/index.js" ∧
    isAbsolutePath (rulesRevision d).entry = true ∧
    (rulesRevision d).output.path = pathJoin d "dist" ∧
    isAbsolutePath (rulesRevision d).output.path = true ∧
    (rulesRevision d).output.filename = "index.bundle.js" :=
  ⟨rfl, isAbsolutePath_pathJoin d _ h, rfl, isAbsolutePath_pathJoin d _ h, rfl⟩

/-- C5 witness: the entry/output property instantiated at the concrete
absolute directory "/app". -/
theorem C5_entry_and_output_witness :
    (rulesRevision "/app").entry = pathJoin "/app" "src/index.js" ∧
    isAbsolutePath (rulesRevision "/app").entry = true ∧
    (rulesRevision "/app").output.path = pathJoin "/app" "dist" ∧
    isAbsolutePath (rulesRevision "/app").output.path = true ∧
    (rulesRevision "/app").output.filename = "index.bundle.js" :=
  C5_entry_and_output "/app" (by decide)

/-- C6: the greeting function falls back to 'World' exactly as a default
parameter would: its result on the missing argument equals its result on
the explicit argument "World", and on every name it returns the greeting
string for that name. -/
theorem C6_hello_default_fallback (n : String) :
    hello none = hello (some "World") ∧
    hello (some n) = "Hello, " ++ n ++ "!" :=
  ⟨rfl, rfl⟩

/-- C7: during startup the entry script registers exactly one listener
(one keyup registration is appended and nothing else), and afterwards no
code path registers another: dispatching any event through the script's
handler leaves the listener list unchanged. -/
theorem C7_single_listener (s : PageState) (helloFn : String → String) (e : Event) :
    (entryStartup s).listeners.length = s.listeners.length + 1 ∧
    (dispatch helloFn e (entryStartup s)).listeners = (entryStartup s).listeners := by
  constructor
  · simp [entryStartup, registeredListeners]
  · rfl

/-- C8: for every defined argument, including the empty string, the
greeting is 'Hello, ' ++ n ++ '!'; the 'World' fallback applies only to
the missing argument, so hello("") is "Hello, !" and not
"Hello, World!". -/
theorem C8_hello_defined_argument (n : String) :
    hello (some n) = "Hello, " ++ n ++ "!" ∧
    hello (some "") = "Hello, !" ∧
    hello (some "") ≠ "Hello, World!" :=
  ⟨rfl, rfl, by decide⟩

/-- C9: on a keyup event whose keyCode is not 13 the handler changes
nothing: the input's value and the `#hellos` content are exactly as
before. -/
theorem C9_handler_frame (helloFn : String → String) (e : Event) (d : Dom)
    (h : e.keyCode ≠ 13) :
    (entryHandler helloFn e d).inputValue = d.inputValue ∧
    (entryHandler helloFn e d).hellosHTML = d.hellosHTML := by
  simp [entryHandler, h]

/-- C9 witness: the frame property at the concrete keyCode 12, input
value "Nick" and prior container content "prior". -/
theorem C9_handler_frame_witness :
    (entryHandler (fun n => hello (some n)) { keyCode := 12 }
        { inputValue := "Nick", hellosHTML := "prior" }).inputValue = "Nick" ∧
    (entryHandler (fun n => hello (some n)) { keyCode := 12 }
        { inputValue := "Nick", hellosHTML := "prior" }).hellosHTML = "prior" :=
  C9_handler_frame (fun n => hello (some n)) { keyCode := 12 }
    { inputValue := "Nick", hellosHTML := "prior" } (by decide)

/-- C10: on a keyup event whose keyCode is 13 the handler appends the
greeting for the input's current value (`e.target.value`) at the end of
the `#hellos` container, preserving all previous content as a prefix,
and then resets the input's value to the empty string. -/
theorem C10_handler_effect (helloFn : String → String) (e : Event) (d : Dom)
    (h : e.keyCode = 13) :
    (entryHandler helloFn e d).hellosHTML = d.hellosHTML ++ helloFn d.inputValue ∧
    (entryHandler helloFn e d).inputValue = "" := by
  simp [entryHandler, insertAdjacentBeforeend, h]

/-- C10 witness: the Enter-key effect at the concrete keyCode 13, input
value "Nick" and prior container content "<ul>", with the greeting module
as the handler's hello function. -/
theorem C10_handler_effect_witness :
    (entryHandler (fun n => hello (some n)) { keyCode := 13 }
        { inputValue := "Nick", hellosHTML := "<ul>" }).hellosHTML
      = "<ul>" ++ hello (some "Nick") ∧
    (entryHandler (fun n => hello (some n)) { keyCode := 13 }
        { inputValue := "Nick", hellosHTML := "<ul>" }).inputValue = "" :=
  C10_handler_effect (fun n => hello (some n)) { keyCode := 13 }
    { inputValue := "Nick", hellosHTML := "<ul>" } rfl

end CookingWithWebpack
